import Mathlib

/-!
Shallow embedding of the alignment-dispatch and piped-execution core of
bcbio-nextgen (files `bcbio/ngsalign/novoalignCS.py` and
`bcbio/pipeline/alignment.py`), together with theorems settling the
specification claims about it.

Python dictionaries with fixed key sets are modelled as Lean structures,
dynamically-typed configuration values as an inductive `PyVal`, and the
filesystem as a list of existing paths.  Shell pipelines are modelled as the
ordered list of the pipe-separated segments of the rendered command template.
-/

namespace BcbioNovoCS

/-- A dynamically-typed Python configuration value, covering the cases the
source code distinguishes (`is True`, `isinstance(..., basestring)`, `None`,
and any other value, represented here by integers). -/
inductive PyVal where
  | none
  | bool (b : Bool)
  | str (s : String)
  | int (n : Int)
deriving DecidableEq, Repr

/-- Python `str(x)` on the values of `PyVal`
(used by `[str(x) for x in resources.get("options", [])]`). -/
def pyStr : PyVal → String
  | .none => "None"
  | .bool true => "True"
  | .bool false => "False"
  | .str s => s
  | .int n => toString n

/-- Python `str.lower()` (ASCII range, which covers the configuration
values at hand): lower-case every character. -/
def pyLower (s : String) : String :=
  String.mk (s.data.map Char.toLower)

/-- Worker for `pySplitWs`: accumulate the current token (reversed) and cut
at whitespace, emitting no empty tokens. -/
def pySplitWsAux : List Char → List Char → List String
  | [], acc => if acc.isEmpty then [] else [String.mk acc.reverse]
  | c :: cs, acc =>
    if c.isWhitespace then
      (if acc.isEmpty then [] else [String.mk acc.reverse])
        ++ pySplitWsAux cs []
    else pySplitWsAux cs (c :: acc)

/-- Python `s.split()` with no argument: split on runs of whitespace,
discarding empty pieces (`"".split() == []`). -/
def pySplitWs (s : String) : List String :=
  pySplitWsAux s.data []

/-- `posixpath.join(a, b)` for two components, as used by
`os.path.join(align_dir, ...)`: an absolute second component (leading `/`)
replaces the first; otherwise a `/` separator is inserted unless `a` is
empty or already ends with `/`. -/
def pyPathJoin (a b : String) : String :=
  if b.data.head? = some '/' then b
  else if a.data.getLast? = some '/' ∨ a = "" then a ++ b
  else a ++ "/" ++ b

/-- The `names` dictionary (`data["rgnames"]`) with the keys the module
reads: `rg`, `lane`, `pl`, `pu`, `sample`. -/
structure RgNames where
  rg : String
  lane : String
  pl : String
  pu : String
  sample : String
deriving DecidableEq, Repr

/-- The resolved configuration slice consumed by `novoalignCS.py`:
`algorithm.quality_format`, `algorithm.multiple_mappers`,
`algorithm.num_cores`, `algorithm.file_format`, and the
`resources.novoalignCS.{options,memory}` entries. -/
structure Config where
  quality_format : Option String
  multiple_mappers : PyVal
  num_cores : Option Nat
  file_format : Option String
  resources_options : Option (List PyVal)
  resources_memory : Option String
deriving DecidableEq, Repr

/-- `get_rg_info(names)` (novoalignCS.py:20-21): renders the raw Python
string `@RG\tID:{rg}\tPL:{pl}\tPU:{pu}\tSM:{sample}` (literal backslash-t
sequences, the read-group id taken from the `rg` key). -/
def get_rg_info (names : RgNames) : String :=
  "@RG\\tID:" ++ names.rg ++ "\\tPL:" ++ names.pl ++ "\\tPU:" ++ names.pu
    ++ "\\tSM:" ++ names.sample

/-- The quality-flag selection of `_novoalignCS_args_from_config`
(novoalignCS.py:102-107): lower-case the declared `quality_format` (default
`""`) and emit `-F XSQ` when it equals the literal `"SOLiD"`, else
`-F BFAST`; empty when `need_quality` is false. -/
def novoalignCSQualFlags (config : Config) (need_quality : Bool) : List String :=
  if need_quality then
    let qual_format := pyLower (config.quality_format.getD "")
    ["-F", if qual_format = "SOLiD" then "XSQ" else "BFAST"]
  else []

/-- The multi-mapper policy of `_novoalignCS_args_from_config`
(novoalignCS.py:108-115): `True` maps to `Random`, a string is used as is,
anything else maps to `None`; the chosen value is whitespace-split after
`-r`. -/
def novoalignCSMultiFlags (config : Config) : List String :=
  let multi_flag :=
    match config.multiple_mappers with
    | .bool true => "Random"
    | .str s => s
    | _ => "None"
  ["-r"] ++ pySplitWs multi_flag

/-- The extra-argument selection of `_novoalignCS_args_from_config`
(novoalignCS.py:116-122): a configured `resources.novoalignCS.options` list
replaces the built-in defaults `-o FullNW -k` entirely (each element
stringified); otherwise the defaults are used. -/
def novoalignCSExtraArgs (config : Config) : List String :=
  match config.resources_options with
  | Option.none => ["-o", "FullNW", "-k"]
  | Option.some opts => opts.map pyStr

/-- `_novoalignCS_args_from_config(config, need_quality)`
(novoalignCS.py:99-123): quality flags, then multi-mapper flags, then extra
arguments. -/
def novoalignCSArgsFromConfig (config : Config) (need_quality : Bool) : List String :=
  novoalignCSQualFlags config need_quality ++ novoalignCSMultiFlags config
    ++ novoalignCSExtraArgs config

/-- Modelled from the spec: the program-resolution collaborator
(`config_utils.get_program`, not in src/) resolves a configured program name;
the spec treats resolution as out of scope, so the name resolves to itself. -/
def get_program (name : String) : String := name

/-- The pipe-separated stages of the command rendered by `align_pipe`
(novoalignCS.py:87-92): novoalignCS alignment, `samtools view` SAM-to-BAM
conversion, `samtools sort` writing to the transactional output prefix.
The three list elements are the segments of the source's format-string
template between its two `|` characters, placeholders substituted. -/
def alignPipeStages (config : Config) (names : RgNames)
    (ref_file fastq_file pair_file txOutPref : String) : List String :=
  let samtools := get_program "samtools"
  let novoalignCS := get_program "novoalignCS"
  let num_cores := config.num_cores.getD 1
  let extra_novo_args := String.intercalate " " (novoalignCSArgsFromConfig config true)
  let max_mem := config.resources_memory.getD "1G"
  let rg_info := get_rg_info names
  [novoalignCS ++ " -o SAM '" ++ rg_info ++ "' -d " ++ ref_file ++ " -f "
      ++ fastq_file ++ " " ++ pair_file ++ "   -c " ++ toString num_cores
      ++ " " ++ extra_novo_args ++ " ",
   " " ++ samtools ++ " view -b -S -u - ",
   " " ++ samtools ++ " sort -@ " ++ toString num_cores ++ " -m " ++ max_mem
      ++ " - " ++ txOutPref]

/-- The pipe-separated stages of the command rendered by `align_bam`
(novoalignCS.py:46-52): novosort name-sort of the input BAM, novoalignCS
realignment (with `need_quality=False` arguments and the `-F` container
format hint), `samtools view` conversion, novosort coordinate sort to the
transactional output path.  The four list elements are the segments of the
source's format-string template between its three `|` characters. -/
def alignBamStages (config : Config) (names : RgNames)
    (in_bam ref_file work_dir tx_out_file : String) : List String :=
  let novosort := get_program "novosort"
  let novoalignCS := get_program "novoalignCS"
  let samtools := get_program "samtools"
  let num_cores := config.num_cores.getD 1
  let max_mem := config.resources_memory.getD "4G"
  let extra_novo_args := String.intercalate " " (novoalignCSArgsFromConfig config false)
  let file_format := config.file_format.getD "BAMPE"
  let rg_info := get_rg_info names
  [novosort ++ " -c " ++ toString num_cores ++ " -m " ++ max_mem
      ++ " --compression 0  -n -t " ++ work_dir ++ " " ++ in_bam ++ " ",
   " " ++ novoalignCS ++ " -o SAM '" ++ rg_info ++ "' -d " ++ ref_file
      ++ " -f /dev/stdin   -F " ++ file_format ++ " -c " ++ toString num_cores
      ++ " " ++ extra_novo_args ++ " ",
   " " ++ samtools ++ " view -b -S -u - ",
   " " ++ novosort ++ " -c " ++ toString num_cores ++ " -m " ++ max_mem
      ++ " -t " ++ work_dir ++ "   -o " ++ tx_out_file ++ " /dev/stdin"]

/-- Outcome of one alignment invocation over a filesystem modelled as the
list of existing paths: the filesystem afterwards, whether the call raised,
how many pipeline stages were launched, and the returned output path
(the value stored in `data["work_bam"]` / returned; `none` on a raise). -/
structure ExecOutcome where
  fs : List String
  raised : Bool
  ranStages : Nat
  ret : Option String
deriving DecidableEq, Repr

/-- Modelled from the spec: the Transactional Output Guard
(`file_transaction`, in `bcbio.distributed.transaction`, not in src/) hands
the guarded block a temporary path distinct from the final path. -/
def txPath (final : String) : String := final ++ ".tx"

/-- Modelled from the spec: `file_transaction(out_file)` around
`do.run(cmd, ..., checks)` (the Transactional Output Guard of spec §4.3 and
Pipeline Executor of §4.4, both outside src/).  The piped command writes a
possibly partial artifact at the temporary path; if the command and every
postcondition check succeed, the temporary artifact is promoted to the final
path; otherwise the temporary artifact is deleted, the final path is not
created, and the error propagates (`raised`). -/
def fileTransactionRun (fs : List String) (final : String) (nStages : Nat)
    (cmdOk postOk : Bool) : ExecOutcome :=
  let tx := txPath final
  let fsRun := tx :: fs
  if cmdOk && postOk then
    { fs := final :: fsRun.filter (fun p => p != tx), raised := false,
      ranStages := nStages, ret := some final }
  else
    { fs := fsRun.filter (fun p => p != tx), raised := true,
      ranStages := nStages, ret := none }

/-- Execution skeleton of `align_bam` (novoalignCS.py:23-56): compute
`out_file = os.path.join(align_dir, "<lane>-sort.bam")`; if it exists,
return it running nothing; otherwise run the 4-stage pipeline under
`file_transaction` and return `out_file`. -/
def align_bam_exec (fs : List String) (names : RgNames) (align_dir : String)
    (cmdOk postOk : Bool) : ExecOutcome :=
  let out_file := pyPathJoin align_dir (names.lane ++ "-sort.bam")
  if out_file ∈ fs then
    { fs := fs, raised := false, ranStages := 0, ret := some out_file }
  else fileTransactionRun fs out_file 4 cmdOk postOk

/-- Execution skeleton of `align_pipe` (novoalignCS.py:65-97) for
invocations without `data["align_split"]` (the split branch delegates
input/output construction to `bcbio.ngsalign.alignprep`, outside src/, and
the spec treats it as out of scope): compute
`out_file = os.path.join(align_dir, "<lane>-sort.bam")`; if it exists
(`final_file` is `None` here), skip the run; otherwise run the 3-stage
pipeline under `file_transaction`; `data["work_bam"]` is set to `out_file`
and `data` returned unless the run raised. -/
def align_pipe_exec (fs : List String) (names : RgNames) (align_dir : String)
    (cmdOk postOk : Bool) : ExecOutcome :=
  let out_file := pyPathJoin align_dir (names.lane ++ "-sort.bam")
  if out_file ∈ fs then
    { fs := fs, raised := false, ranStages := 0, ret := some out_file }
  else fileTransactionRun fs out_file 3 cmdOk postOk

/-- Execution skeleton of `align` (novoalignCS.py:130-151): compute
`out_file = os.path.join(align_dir, "<out_base>.sam")`; if it exists, return
it running nothing; otherwise run the single-stage command under
`file_transaction` (its `do.run` registers no postcondition checks) and
return `out_file`. -/
def align_exec (fs : List String) (out_base : String) (align_dir : String)
    (cmdOk : Bool) : ExecOutcome :=
  let out_file := pyPathJoin align_dir (out_base ++ ".sam")
  if out_file ∈ fs then
    { fs := fs, raised := false, ranStages := 0, ret := some out_file }
  else fileTransactionRun fs out_file 1 cmdOk true

/-- Index of the last occurrence of `c` in `cs`, or `-1` when absent
(Python `str.rfind`). -/
def lastIdxOf (cs : List Char) (c : Char) : Int :=
  match cs.reverse.findIdx? (fun x => x == c) with
  | Option.some i => (cs.length : Int) - 1 - (i : Int)
  | Option.none => -1

/-- `os.path.splitext(p)[0]` (posixpath `_splitext`): drop the extension
starting at the last dot when that dot lies after the last `/` and the
basename has a non-dot character before it (so all-dot names like
`.bashrc` keep no extension). -/
def splitextRoot (p : String) : String :=
  let cs := p.data
  let sepIndex := lastIdxOf cs '/'
  let dotIndex := lastIdxOf cs '.'
  if sepIndex < dotIndex then
    let nameStart := (sepIndex + 1).toNat
    if ((cs.drop nameStart).take (dotIndex.toNat - nameStart)).any
        (fun ch => ch != '.') then
      String.mk (cs.take dotIndex.toNat)
    else p
  else p

/-- Worker for `pyReplace`: scan the character list, replacing each
non-overlapping occurrence of `old` by `new`, left to right; the fuel is an
upper bound on the scan length (one character consumed per step for the
nonempty patterns this file uses). -/
def pyReplaceAux (old new : List Char) : Nat → List Char → List Char
  | 0, cs => cs
  | _ + 1, [] => []
  | fuel + 1, c :: cs =>
    if old.isPrefixOf (c :: cs) then
      new ++ pyReplaceAux old new fuel ((c :: cs).drop old.length)
    else c :: pyReplaceAux old new fuel cs

/-- Python `s.replace(old, new)`: replace every non-overlapping occurrence,
left to right. -/
def pyReplace (s old new : String) : String :=
  String.mk (pyReplaceAux old.data new.data s.data.length s.data)

/-- The `checks` list of `remap_index_fn` (novoalignCS.py:170-174), in
source order: `/seq/`-to-`/novoalignCS/` directory substitution on the
extension-stripped path, extension replacement with `.ndx`, appended
`.bs.ndx`, appended `.ndx`. -/
def remapIndexChecks (ref_file : String) : List String :=
  [pyReplace (splitextRoot ref_file) "/seq/" "/novoalignCS/",
   splitextRoot ref_file ++ ".ndx",
   ref_file ++ ".bs.ndx",
   ref_file ++ ".ndx"]

/-- `remap_index_fn(ref_file)` (novoalignCS.py:167-177) over a filesystem
modelled by the existence predicate `fsExists`: return the first of the
`checks` that exists, else `checks[0]`. -/
def remap_index_fn (fsExists : String → Bool) (ref_file : String) : String :=
  ((remapIndexChecks ref_file).find? fsExists).getD
    (pyReplace (splitextRoot ref_file) "/seq/" "/novoalignCS/")

/-- Python-level errors the dispatch layer of `bcbio/pipeline/alignment.py`
can produce. -/
inductive PyErr where
  | typeError
  | attributeError
  | keyError
  | notImplementedError (msg : String)
deriving DecidableEq, Repr

/-- The `NgsTool` namedtuple (alignment.py:25-26) with its four declared
fields; handler values are modelled by the qualified names of the plugged-in
functions (`Option.none` for Python `None`). -/
structure NgsTool where
  align_fn : Option String
  bam_align_fn : Option String
  galaxy_loc_file : Option String
  remap_index_fn : Option String
deriving DecidableEq, Repr

/-- Calling the `NgsTool` namedtuple constructor with a positional argument
list: Python raises `TypeError` unless exactly the four declared fields are
supplied. -/
def mkNgsTool (args : List (Option String)) : Except PyErr NgsTool :=
  match args with
  | [a, b, g, r] => Except.ok ⟨a, b, g, r⟩
  | _ => Except.error PyErr.typeError

/-- The entries of the `TOOLS` dict literal (alignment.py:31-46) in source
order, each as the tool name paired with the positional arguments of its
`NgsTool(...)` constructor call.  The `novoalignCS` entry passes six
arguments, as in the source. -/
def toolEntries : List (String × List (Option String)) :=
  [("bowtie", [some "bowtie.align", none, some "bowtie.galaxy_location_file",
     none]),
   ("bowtie2", [some "bowtie2.align", none,
     some "bowtie2.galaxy_location_file", some "bowtie2.remap_index_fn"]),
   ("bwa", [some "bwa.align_pipe", some "bwa.align_bam",
     some "bwa.galaxy_location_file", none]),
   ("mosaik", [some "mosaik.align", none, some "mosaik.galaxy_location_file",
     none]),
   ("novoalign", [some "novoalign.align_pipe", some "novoalign.align_bam",
     some "novoalign.galaxy_location_file", some "novoalign.remap_index_fn"]),
   ("novoalignCS", [some "novoalignCS.align", some "novoalignCS.align_pipe",
     some "novoalignCS.align_bam", some "novoalignCS.galaxy_location_file",
     some "novoalignCS.remap_index_fn", some "novoalignCS.can_pipe"]),
   ("tophat", [some "tophat.align", none, some "bowtie2.galaxy_location_file",
     some "bowtie2.remap_index_fn"]),
   ("samtools", [none, none, some "sam_fa_indices.loc", none]),
   ("star", [some "star.align", none, none, some "star.remap_index_fn"]),
   ("tophat2", [some "tophat.align", none,
     some "bowtie2.galaxy_location_file", some "bowtie2.remap_index_fn"])]

/-- Populating `TOOLS` at module import (alignment.py:31-46): evaluate each
`NgsTool(...)` constructor call in order; any `TypeError` aborts the import. -/
def buildTOOLS : Except PyErr (List (String × NgsTool)) :=
  toolEntries.mapM (fun e => (mkNgsTool e.2).map (fun t => (e.1, t)))

/-- Python attribute access on an `NgsTool` namedtuple value: the four
declared fields succeed, any other attribute name raises `AttributeError`. -/
def ngsToolGetattr (t : NgsTool) (attr : String) : Except PyErr (Option String) :=
  if attr = "align_fn" then Except.ok t.align_fn
  else if attr = "bam_align_fn" then Except.ok t.bam_align_fn
  else if attr = "galaxy_loc_file" then Except.ok t.galaxy_loc_file
  else if attr = "remap_index_fn" then Except.ok t.remap_index_fn
  else Except.error PyErr.attributeError

/-- The dispatch portion of `_align_from_fastq_pipe` (alignment.py:71-77):
look the aligner up in the table, read its `pipe_align_fn` attribute, and
raise `NotImplementedError` when the handler is `None`. -/
def alignFromFastqPipeDispatch (tools : List (String × NgsTool))
    (aligner : String) : Except PyErr String :=
  match tools.lookup aligner with
  | Option.none => Except.error PyErr.keyError
  | Option.some t =>
    match ngsToolGetattr t "pipe_align_fn" with
    | Except.error e => Except.error e
    | Except.ok Option.none =>
      Except.error (PyErr.notImplementedError
        ("Do not yet support piped alignment with " ++ aligner))
    | Except.ok (Option.some f) => Except.ok f

/-- The read-group annotation string as the amended claim words it: the
structured `@RG` header whose `ID` field is the record's read-group id
(`rg`) field, followed by the platform (`PL`), platform-unit (`PU`) and
sample (`SM`) fields, assembled with literal backslash-t separators and no
validation of field contents. -/
def claimReadGroupString (names : RgNames) : String :=
  "@RG" ++ "\\t" ++ "ID:" ++ names.rg ++ "\\t" ++ "PL:" ++ names.pl
    ++ "\\t" ++ "PU:" ++ names.pu ++ "\\t" ++ "SM:" ++ names.sample

/-- A default configuration: every optional key absent,
`multiple_mappers` unset (Python `None`). -/
def defaultCfg : Config :=
  { quality_format := none, multiple_mappers := PyVal.none,
    num_cores := none, file_format := none, resources_options := none,
    resources_memory := none }

/-- A concrete `rgnames` record whose read-group id (`rg`) differs from its
lane, to separate the two keys. -/
def namesW : RgNames :=
  { rg := "RG7", lane := "L1", pl := "illumina", pu := "unit1", sample := "S1" }

/-- A concrete `rgnames` record matching the spec's end-to-end scenario
(`lane: "L1", sample: "S1", pl: "illumina", pu: "unit1"`), with `rg = lane`. -/
def namesL1 : RgNames :=
  { rg := "L1", lane := "L1", pl := "illumina", pu := "unit1", sample := "S1" }

/-! ## Theorems -/

/-- Shared helper: when the guarded block raises, the final path (absent
beforehand, since otherwise the run is skipped) is still absent afterwards
and the temporary artifact has been deleted. -/
theorem fileTransactionRun_raised_absent (fs : List String) (out : String)
    (n : Nat) (c p : Bool) (hout : out ∉ fs)
    (hr : (fileTransactionRun fs out n c p).raised = true) :
    out ∉ (fileTransactionRun fs out n c p).fs ∧
      txPath out ∉ (fileTransactionRun fs out n c p).fs := by
  by_cases hcp : (c && p) = true
  · simp [fileTransactionRun, hcp] at hr
  · rw [Bool.not_eq_true] at hcp
    simp only [fileTransactionRun, hcp, Bool.false_eq_true, if_false]
    constructor
    · intro hmem
      rw [List.mem_filter] at hmem
      rcases List.mem_cons.mp hmem.1 with heq | hin
      · exact absurd heq (by simpa using hmem.2)
      · exact hout hin
    · intro hmem
      rw [List.mem_filter] at hmem
      simp at hmem

/-- Shared helper: the guarded skeleton (skip when the final path exists,
else run under the transaction) leaves the final path and its temporary
absent whenever it raises. -/
theorem guarded_raised_absent (fs : List String) (out : String) (n : Nat)
    (c p : Bool)
    (hr : (if out ∈ fs then
            ({ fs := fs, raised := false, ranStages := 0, ret := some out } :
              ExecOutcome)
          else fileTransactionRun fs out n c p).raised = true) :
    out ∉ (if out ∈ fs then
            ({ fs := fs, raised := false, ranStages := 0, ret := some out } :
              ExecOutcome)
          else fileTransactionRun fs out n c p).fs ∧
      txPath out ∉ (if out ∈ fs then
            ({ fs := fs, raised := false, ranStages := 0, ret := some out } :
              ExecOutcome)
          else fileTransactionRun fs out n c p).fs := by
  by_cases hmem : out ∈ fs
  · rw [if_pos hmem] at hr
    simp at hr
  · rw [if_neg hmem] at hr ⊢
    exact fileTransactionRun_raised_absent fs out n c p hmem hr

/-- Claim C1: for every alignment invocation (`align_bam`, `align_pipe`, or
`align`) in which the guarded block raises (a failed stage or failed
postcondition), no file exists at the final output path afterwards: the
temporary artifact is deleted and the final path is left absent. -/
theorem c1_failed_run_leaves_no_final_output (fs : List String)
    (names : RgNames) (align_dir out_base : String) (cmdOk postOk : Bool) :
    ((align_bam_exec fs names align_dir cmdOk postOk).raised = true →
      pyPathJoin align_dir (names.lane ++ "-sort.bam")
          ∉ (align_bam_exec fs names align_dir cmdOk postOk).fs ∧
      txPath (pyPathJoin align_dir (names.lane ++ "-sort.bam"))
          ∉ (align_bam_exec fs names align_dir cmdOk postOk).fs) ∧
    ((align_pipe_exec fs names align_dir cmdOk postOk).raised = true →
      pyPathJoin align_dir (names.lane ++ "-sort.bam")
          ∉ (align_pipe_exec fs names align_dir cmdOk postOk).fs ∧
      txPath (pyPathJoin align_dir (names.lane ++ "-sort.bam"))
          ∉ (align_pipe_exec fs names align_dir cmdOk postOk).fs) ∧
    ((align_exec fs out_base align_dir cmdOk).raised = true →
      pyPathJoin align_dir (out_base ++ ".sam")
          ∉ (align_exec fs out_base align_dir cmdOk).fs ∧
      txPath (pyPathJoin align_dir (out_base ++ ".sam"))
          ∉ (align_exec fs out_base align_dir cmdOk).fs) := by
  refine ⟨?_, ?_, ?_⟩
  · intro hr
    exact guarded_raised_absent fs (pyPathJoin align_dir (names.lane ++ "-sort.bam"))
      4 cmdOk postOk hr
  · intro hr
    exact guarded_raised_absent fs (pyPathJoin align_dir (names.lane ++ "-sort.bam"))
      3 cmdOk postOk hr
  · intro hr
    exact guarded_raised_absent fs (pyPathJoin align_dir (out_base ++ ".sam"))
      1 cmdOk true hr

/-- Witness for C1: a concrete failing run (postcondition check fails) of
each of the three entry points on an empty filesystem leaves
`/d/L1-sort.bam` (resp. `/d/lane1.sam`) absent. -/
theorem c1_failed_run_leaves_no_final_output_witness :
    (pyPathJoin "/d" (namesL1.lane ++ "-sort.bam")
        ∉ (align_bam_exec [] namesL1 "/d" true false).fs ∧
      txPath (pyPathJoin "/d" (namesL1.lane ++ "-sort.bam"))
        ∉ (align_bam_exec [] namesL1 "/d" true false).fs) ∧
    (pyPathJoin "/d" (namesL1.lane ++ "-sort.bam")
        ∉ (align_pipe_exec [] namesL1 "/d" true false).fs ∧
      txPath (pyPathJoin "/d" (namesL1.lane ++ "-sort.bam"))
        ∉ (align_pipe_exec [] namesL1 "/d" true false).fs) ∧
    (pyPathJoin "/d" ("lane1" ++ ".sam") ∉ (align_exec [] "lane1" "/d" false).fs ∧
      txPath (pyPathJoin "/d" ("lane1" ++ ".sam"))
        ∉ (align_exec [] "lane1" "/d" false).fs) := by
  have h := c1_failed_run_leaves_no_final_output [] namesL1 "/d" "lane1" true false
  have h2 := c1_failed_run_leaves_no_final_output [] namesL1 "/d" "lane1" false false
  exact ⟨h.1 (by decide), h.2.1 (by decide), h2.2.2 (by decide)⟩

/-- Claim C2: for every alignment invocation (`align_bam`, `align_pipe`, or
`align`) whose final output path already exists, the call returns that same
path (for `align_pipe`, the sample record's `work_bam` points at it), the
filesystem is unchanged, and no pipeline stage is launched. -/
theorem c2_existing_output_skips_pipeline (fs : List String)
    (names : RgNames) (align_dir out_base : String) (cmdOk postOk : Bool) :
    (pyPathJoin align_dir (names.lane ++ "-sort.bam") ∈ fs →
      align_bam_exec fs names align_dir cmdOk postOk =
        { fs := fs, raised := false, ranStages := 0,
          ret := some (pyPathJoin align_dir (names.lane ++ "-sort.bam")) }) ∧
    (pyPathJoin align_dir (names.lane ++ "-sort.bam") ∈ fs →
      align_pipe_exec fs names align_dir cmdOk postOk =
        { fs := fs, raised := false, ranStages := 0,
          ret := some (pyPathJoin align_dir (names.lane ++ "-sort.bam")) }) ∧
    (pyPathJoin align_dir (out_base ++ ".sam") ∈ fs →
      align_exec fs out_base align_dir cmdOk =
        { fs := fs, raised := false, ranStages := 0,
          ret := some (pyPathJoin align_dir (out_base ++ ".sam")) }) := by
  refine ⟨?_, ?_, ?_⟩ <;> intro hmem
  · show (if pyPathJoin align_dir (names.lane ++ "-sort.bam") ∈ fs then _ else _) = _
    rw [if_pos hmem]
  · show (if pyPathJoin align_dir (names.lane ++ "-sort.bam") ∈ fs then _ else _) = _
    rw [if_pos hmem]
  · show (if pyPathJoin align_dir (out_base ++ ".sam") ∈ fs then _ else _) = _
    rw [if_pos hmem]

/-- Witness for C2: with `/d/L1-sort.bam` (resp. `/d/lane1.sam`) already on
disk, each of the three entry points returns it, runs zero stages, and
leaves the filesystem unchanged. -/
theorem c2_existing_output_skips_pipeline_witness :
    align_bam_exec [pyPathJoin "/d" (namesL1.lane ++ "-sort.bam"),
        pyPathJoin "/d" ("lane1" ++ ".sam")] namesL1 "/d" true true =
      { fs := [pyPathJoin "/d" (namesL1.lane ++ "-sort.bam"),
          pyPathJoin "/d" ("lane1" ++ ".sam")], raised := false,
        ranStages := 0,
        ret := some (pyPathJoin "/d" (namesL1.lane ++ "-sort.bam")) } ∧
    align_pipe_exec [pyPathJoin "/d" (namesL1.lane ++ "-sort.bam"),
        pyPathJoin "/d" ("lane1" ++ ".sam")] namesL1 "/d" true true =
      { fs := [pyPathJoin "/d" (namesL1.lane ++ "-sort.bam"),
          pyPathJoin "/d" ("lane1" ++ ".sam")], raised := false,
        ranStages := 0,
        ret := some (pyPathJoin "/d" (namesL1.lane ++ "-sort.bam")) } ∧
    align_exec [pyPathJoin "/d" (namesL1.lane ++ "-sort.bam"),
        pyPathJoin "/d" ("lane1" ++ ".sam")] "lane1" "/d" true =
      { fs := [pyPathJoin "/d" (namesL1.lane ++ "-sort.bam"),
          pyPathJoin "/d" ("lane1" ++ ".sam")], raised := false,
        ranStages := 0,
        ret := some (pyPathJoin "/d" ("lane1" ++ ".sam")) } := by
  have h := c2_existing_output_skips_pipeline
    [pyPathJoin "/d" (namesL1.lane ++ "-sort.bam"),
      pyPathJoin "/d" ("lane1" ++ ".sam")] namesL1 "/d" "lane1" true true
  exact ⟨h.1 (by decide), h.2.1 (by decide), h.2.2 (by decide)⟩

/-- Claim C3 (code bug): populating the capability table crashes — the
`novoalignCS` entry passes six positional arguments to the four-field
`NgsTool` namedtuple, so building `TOOLS` raises `TypeError` at import —
and the FASTQ-pipe dispatch reads the nonexistent attribute
`pipe_align_fn`, raising `AttributeError` (not the `NotImplementedError`
reserved for missing handlers) for every tool in any table. -/
theorem c3_capability_table_crashes :
    buildTOOLS = Except.error PyErr.typeError ∧
    (∀ t : NgsTool,
      ngsToolGetattr t "pipe_align_fn" = Except.error PyErr.attributeError) ∧
    (∀ (t : NgsTool) (aligner : String),
      alignFromFastqPipeDispatch [(aligner, t)] aligner =
        Except.error PyErr.attributeError) := by
  refine ⟨rfl, fun t => rfl, fun t aligner => ?_⟩
  simp [alignFromFastqPipeDispatch, List.lookup, ngsToolGetattr]

/-- Counterexample to claim C4 as stated: on a concrete default-config
FASTQ invocation, `align_pipe` renders a pipeline of three pipe-separated
stages (alignment, SAM-to-BAM conversion, sort), not exactly two. -/
theorem c4_counterexample_not_two_stages :
    (alignPipeStages defaultCfg namesL1 "/ref/genomecs.ndx" "/d/in.csfastq"
      "" "/d/tx/L1-sort").length ≠ 2 := by decide

/-- Claim C4 (amended): for every FASTQ-input streaming alignment without
split alignment, `align_pipe` renders a piped pipeline of exactly three
stages — alignment, SAM-to-BAM conversion, then sort to the guarded
temporary output — and the final output path is
`<align_dir>/<lane>-sort.bam` (whenever `align_dir` is a nonempty directory
path without a trailing slash and the lane-derived file name is relative,
so that `os.path.join` concatenates). -/
theorem c4_amended_three_stage_pipeline (config : Config) (names : RgNames)
    (ref_file fastq_file pair_file txOutPref align_dir : String)
    (h1 : (names.lane ++ "-sort.bam").data.head? ≠ some '/')
    (h2 : align_dir.data.getLast? ≠ some '/') (h3 : align_dir ≠ "") :
    (alignPipeStages config names ref_file fastq_file pair_file
      txOutPref).length = 3 ∧
    pyPathJoin align_dir (names.lane ++ "-sort.bam") =
      align_dir ++ "/" ++ (names.lane ++ "-sort.bam") := by
  refine ⟨rfl, ?_⟩
  unfold pyPathJoin
  rw [if_neg h1, if_neg ?_]
  intro hor
  rcases hor with hsl | hemp
  · exact h2 hsl
  · exact h3 hemp

/-- Witness for C4 (amended): the spec's end-to-end scenario — lane `L1`,
default configuration, concrete align dir `/data/align` — renders three
stages and the output path `/data/align/L1-sort.bam`. -/
theorem c4_amended_three_stage_pipeline_witness :
    (alignPipeStages defaultCfg namesL1 "/ref/genomecs.ndx" "/d/in.csfastq"
      "" "/d/tx/L1-sort").length = 3 ∧
    pyPathJoin "/data/align" (namesL1.lane ++ "-sort.bam") =
      "/data/align" ++ "/" ++ (namesL1.lane ++ "-sort.bam") :=
  c4_amended_three_stage_pipeline defaultCfg namesL1 "/ref/genomecs.ndx"
    "/d/in.csfastq" "" "/d/tx/L1-sort" "/data/align" (by decide) (by decide)
    (by decide)

/-- Claim C5 (code bug): the source lower-cases the declared
`quality_format` and then compares it with the mixed-case literal
`"SOLiD"`, which no lower-cased string can equal, so every spelling of the
sentinel — `"SOLiD"`, `"solid"`, `"SOLID"` — renders the default
`-F BFAST` instead of `-F XSQ`. -/
theorem c5_solid_sentinel_never_matches :
    novoalignCSQualFlags { defaultCfg with quality_format := some "SOLiD" }
        true = ["-F", "BFAST"] ∧
    novoalignCSQualFlags { defaultCfg with quality_format := some "solid" }
        true = ["-F", "BFAST"] ∧
    novoalignCSQualFlags { defaultCfg with quality_format := some "SOLID" }
        true = ["-F", "BFAST"] ∧
    novoalignCSQualFlags defaultCfg true = ["-F", "BFAST"] := by
  refine ⟨?_, ?_, ?_, ?_⟩ <;> decide

/-- Counterexample to claim C6 as stated: on a record whose read-group id
(`rg`) differs from its lane, `get_rg_info` takes the `ID` field from `rg`,
not from the lane, so the claimed `ID=<lane>` string is not produced. -/
theorem c6_counterexample_id_not_lane :
    get_rg_info namesW = "@RG\\tID:RG7\\tPL:illumina\\tPU:unit1\\tSM:S1" ∧
    get_rg_info namesW ≠ "@RG\\tID:L1\\tPL:illumina\\tPU:unit1\\tSM:S1" := by
  constructor <;> decide

/-- Claim C6 (amended): for every record, the read-group annotation string
is the structured `@RG` header with `ID` taken from the record's
read-group id (`rg`) field — not the lane field — followed by `PL`, `PU`,
`SM`, with no validation of field contents; and `align_bam` passes exactly
this string, quoted, to its alignment stage. -/
theorem c6_amended_rg_from_rg_field (names : RgNames) (config : Config)
    (in_bam ref_file work_dir tx_out_file : String) :
    get_rg_info names = claimReadGroupString names ∧
    (alignBamStages config names in_bam ref_file work_dir tx_out_file)[1]? =
      some (" " ++ get_program "novoalignCS" ++ " -o SAM '"
        ++ get_rg_info names ++ "' -d " ++ ref_file ++ " -f /dev/stdin   -F "
        ++ config.file_format.getD "BAMPE" ++ " -c "
        ++ toString (config.num_cores.getD 1) ++ " "
        ++ String.intercalate " " (novoalignCSArgsFromConfig config false)
        ++ " ") := by
  constructor
  · show get_rg_info names = claimReadGroupString names
    unfold get_rg_info claimReadGroupString
    simp [String.append_assoc]
  · rfl

/-- Counterexample to claim C7 as stated: the chosen multi-mapper string is
whitespace-split after `-r`, so the empty string renders as a bare `-r`
with no following argument, not as the string placed verbatim after
`-r`. -/
theorem c7_counterexample_not_verbatim :
    novoalignCSMultiFlags { defaultCfg with multiple_mappers := PyVal.str "" }
        = ["-r"] ∧
    novoalignCSMultiFlags { defaultCfg with multiple_mappers := PyVal.str "" }
        ≠ ["-r", ""] := by
  constructor <;> decide

/-- Claim C7 (amended): the multi-mapper policy renders as follows — the
boolean `True` yields `-r Random`; a string value yields `-r` followed by
the whitespace-split tokens of that string (the string itself, verbatim,
when it is a single whitespace-free token); any other value, including
absent/`None`, yields `-r None`. -/
theorem c7_amended_multi_mapper_policy (c : Config) :
    (c.multiple_mappers = PyVal.bool true →
      novoalignCSMultiFlags c = ["-r", "Random"]) ∧
    (∀ s, c.multiple_mappers = PyVal.str s →
      novoalignCSMultiFlags c = "-r" :: pySplitWs s) ∧
    (c.multiple_mappers ≠ PyVal.bool true →
      (∀ s, c.multiple_mappers ≠ PyVal.str s) →
      novoalignCSMultiFlags c = ["-r", "None"]) := by
  refine ⟨?_, ?_, ?_⟩
  · intro h
    unfold novoalignCSMultiFlags
    rw [h]
    decide
  · intro s h
    unfold novoalignCSMultiFlags
    rw [h]
    rfl
  · intro hb hs
    unfold novoalignCSMultiFlags
    cases hmm : c.multiple_mappers with
    | none => rfl
    | bool b =>
      cases b with
      | false => rfl
      | true => exact absurd hmm hb
    | str s => exact absurd hmm (hs s)
    | int n => rfl

/-- Witness for C7 (amended): the spec's three-case table — `True` gives
`-r Random`, the string `"best2"` gives `-r best2`, absent (`None`) gives
`-r None`. -/
theorem c7_amended_multi_mapper_policy_witness :
    novoalignCSMultiFlags
        { defaultCfg with multiple_mappers := PyVal.bool true } =
      ["-r", "Random"] ∧
    novoalignCSMultiFlags
        { defaultCfg with multiple_mappers := PyVal.str "best2" } =
      ["-r", "best2"] ∧
    novoalignCSMultiFlags defaultCfg = ["-r", "None"] := by
  refine ⟨?_, ?_, ?_⟩
  · exact (c7_amended_multi_mapper_policy _).1 rfl
  · have h := ((c7_amended_multi_mapper_policy
      { defaultCfg with multiple_mappers := PyVal.str "best2" }).2.1) "best2" rfl
    rw [h]
    decide
  · exact (c7_amended_multi_mapper_policy defaultCfg).2.2 (by decide)
      (fun s h => by cases h)

/-- Claim C8: a configured `resources.novoalignCS.options` list replaces
the built-in defaults `-o FullNW -k` entirely — the rendered extra
arguments are exactly the configured list, stringified — while an absent
list yields exactly the built-in defaults; in either case the extra
arguments form the tail of the full rendered argument list. -/
theorem c8_options_override_defaults (c : Config) (b : Bool) :
    (c.resources_options = Option.none →
      novoalignCSExtraArgs c = ["-o", "FullNW", "-k"] ∧
      novoalignCSArgsFromConfig c b =
        novoalignCSQualFlags c b ++ novoalignCSMultiFlags c
          ++ ["-o", "FullNW", "-k"]) ∧
    (∀ opts, c.resources_options = Option.some opts →
      novoalignCSExtraArgs c = opts.map pyStr ∧
      novoalignCSArgsFromConfig c b =
        novoalignCSQualFlags c b ++ novoalignCSMultiFlags c
          ++ opts.map pyStr) := by
  constructor
  · intro h
    have he : novoalignCSExtraArgs c = ["-o", "FullNW", "-k"] := by
      unfold novoalignCSExtraArgs
      rw [h]
    refine ⟨he, ?_⟩
    unfold novoalignCSArgsFromConfig
    rw [he]
  · intro opts h
    have he : novoalignCSExtraArgs c = opts.map pyStr := by
      unfold novoalignCSExtraArgs
      rw [h]
    refine ⟨he, ?_⟩
    unfold novoalignCSArgsFromConfig
    rw [he]

/-- Witness for C8: the spec's vector `options = ["-a","-b"]` renders
exactly `-a -b` (the defaults `-o FullNW -k` are absent), and the default
configuration renders exactly `-o FullNW -k`. -/
theorem c8_options_override_defaults_witness :
    novoalignCSExtraArgs
        { defaultCfg with
          resources_options := some [PyVal.str "-a", PyVal.str "-b"] } =
      ["-a", "-b"] ∧
    "-o" ∉ novoalignCSExtraArgs
        { defaultCfg with
          resources_options := some [PyVal.str "-a", PyVal.str "-b"] } ∧
    novoalignCSExtraArgs defaultCfg = ["-o", "FullNW", "-k"] := by
  have h := ((c8_options_override_defaults
    { defaultCfg with
      resources_options := some [PyVal.str "-a", PyVal.str "-b"] } true).2)
    [PyVal.str "-a", PyVal.str "-b"] rfl
  have hd := ((c8_options_override_defaults defaultCfg true).1 rfl).1
  refine ⟨?_, ?_, hd⟩
  · rw [h.1]
    decide
  · rw [h.1]
    decide

/-- Claim C9: `remap_index_fn` tries the four candidate index paths in
order — `/seq/`→`/novoalignCS/` directory substitution on the
extension-stripped path, `.ndx` extension replacement, appended `.bs.ndx`,
appended `.ndx` — returning the first that exists, and the first candidate
(the directory-substitution guess) when none exists. -/
theorem c9_remap_tries_candidates_in_order (ex : String → Bool)
    (ref_file : String) :
    remapIndexChecks ref_file =
      [pyReplace (splitextRoot ref_file) "/seq/" "/novoalignCS/",
       splitextRoot ref_file ++ ".ndx",
       ref_file ++ ".bs.ndx",
       ref_file ++ ".ndx"] ∧
    remap_index_fn ex ref_file =
      (if ex (pyReplace (splitextRoot ref_file) "/seq/" "/novoalignCS/") then
        pyReplace (splitextRoot ref_file) "/seq/" "/novoalignCS/"
      else if ex (splitextRoot ref_file ++ ".ndx") then
        splitextRoot ref_file ++ ".ndx"
      else if ex (ref_file ++ ".bs.ndx") then
        ref_file ++ ".bs.ndx"
      else if ex (ref_file ++ ".ndx") then
        ref_file ++ ".ndx"
      else
        pyReplace (splitextRoot ref_file) "/seq/" "/novoalignCS/") := by
  refine ⟨rfl, ?_⟩
  unfold remap_index_fn remapIndexChecks
  cases h0 : ex (pyReplace (splitextRoot ref_file) "/seq/" "/novoalignCS/") <;>
    cases h1 : ex (splitextRoot ref_file ++ ".ndx") <;>
    cases h2 : ex (ref_file ++ ".bs.ndx") <;>
    cases h3 : ex (ref_file ++ ".ndx") <;>
    simp [List.find?, h0, h1, h2, h3]

/-- Claim C10: `align_bam` requests its arguments with
`need_quality=False`, so the rendered realignment command carries no
quality-format flag — the argument list is just multi-mapper flags plus
extra arguments, unchanged under any `algorithm.quality_format` — and the
`-F` value in its alignment stage is the container-format hint
(`algorithm.file_format`, default `BAMPE`), not a quality flag. -/
theorem c10_bam_realign_has_no_quality_flag (c : Config) (qf : Option String)
    (names : RgNames) (in_bam ref_file work_dir tx_out_file : String) :
    novoalignCSQualFlags c false = [] ∧
    novoalignCSArgsFromConfig c false =
      novoalignCSMultiFlags c ++ novoalignCSExtraArgs c ∧
    novoalignCSArgsFromConfig { c with quality_format := qf } false =
      novoalignCSArgsFromConfig c false ∧
    alignBamStages { c with quality_format := qf } names in_bam ref_file
        work_dir tx_out_file =
      alignBamStages c names in_bam ref_file work_dir tx_out_file ∧
    (alignBamStages c names in_bam ref_file work_dir tx_out_file)[1]? =
      some (" " ++ get_program "novoalignCS" ++ " -o SAM '"
        ++ get_rg_info names ++ "' -d " ++ ref_file ++ " -f /dev/stdin   -F "
        ++ c.file_format.getD "BAMPE" ++ " -c "
        ++ toString (c.num_cores.getD 1) ++ " "
        ++ String.intercalate " " (novoalignCSArgsFromConfig c false)
        ++ " ") :=
  ⟨rfl, rfl, rfl, rfl, rfl⟩

end BcbioNovoCS
